import Mathlib

/-!
Verification of the GL bonus reconciler core against its specification.

The development shallowly embeds the claim-relevant parts of the source:

* the in-memory data accumulator of biaProcessor.py
  (store_to_accum / get_from_accum);
* the checkpoint / recovery store of biaRecovery.py
  (reset_states, the recovery start-up routine, save_state / get_state);
* the stage-skip logic of the export stages in biaController.py;
* the exchange-rate acquisition ladder of biaController.reconcile;
* the FBL3N conversion pipeline of biaProcessor.py
  (text-token derivation, chunked parallel parsing);
* the local-entity currency-correction calculation, the agreement-state
  validation and the summary roll-up of biaProcessor.py.

Machine reals (float64) are modelled by the rational numbers; pandas
missing values (NA) are modelled by Option.
-/

namespace GLBR

/-! ## Association-list helpers (Python dict as a list of key-value pairs) -/

/-- Dictionary lookup: first value bound to the key, if any. -/
def alookup {α β : Type} [DecidableEq α] (k : α) : List (α × β) → Option β
  | [] => none
  | (a, b) :: rest => if a = k then some b else alookup k rest

/-- Python `k in d` membership test on a dictionary. -/
def amem {α β : Type} [DecidableEq α] (k : α) (d : List (α × β)) : Bool :=
  (alookup k d).isSome

/-- Dictionary update `d[k] = v`: replaces the first binding of `k`, or
appends a new binding when the key is absent. -/
def aset {α β : Type} [DecidableEq α] (k : α) (v : β) : List (α × β) → List (α × β)
  | [] => [(k, v)]
  | (a, b) :: rest => if a = k then (k, v) :: rest else (a, b) :: aset k v rest

/-! ## Accumulator (biaProcessor.store_to_accum / get_from_accum)

The accumulator is a nested dict: data-descriptor key -> country -> value,
or key -> country -> account -> value when the descriptor is account-keyed
(fs10n_data, text_summs).  A value is `None` (explicit no-data) or a
DataFrame; the DataFrame payload is left abstract as a type parameter. -/

/-- A slot under (key, country): either data stored directly (account not
used), or an account-keyed sub-dictionary.  Mirrors the runtime shape of
`_accum[key][country]` in biaProcessor.py. -/
inductive Slot (α : Type) where
  | flat (d : Option α)
  | nested (m : List (String × Option α))
  deriving DecidableEq

/-- The accumulator: descriptor key -> country -> slot. -/
abbrev Accum (α : Type) : Type := List (String × List (String × Slot α))

/-- Errors surfaced by the accumulator, mirroring the Python exceptions:
ValueError for a non-numeric account, RuntimeError for a write on an
occupied key, KeyError for a fetch of an unset key, and the TypeError the
interpreter raises when an account is used below a slot that holds plain
data (`acc in None`). -/
inductive AccumErr where
  | valueError
  | runtimeError
  | keyError
  | typeError
  deriving DecidableEq

/-- Python `str(acc).isnumeric()` for the account strings used here. -/
def isNumericStr (s : String) : Bool :=
  s.length != 0 && s.toList.all Char.isDigit

/-- The descriptor keys pre-created in the module-level `_accum` dict. -/
def accumKeys : List String :=
  ["fbl3n_data", "text_summs", "check_text_summs", "kona_data", "kote_data",
   "loc_bonus_data", "glob_bonus_data", "glob_bonus_calcs", "loc_bonus_calcs",
   "glob_agreement_comparison", "loc_agreement_comparison", "loc_conditions",
   "fs10n_data", "final_summary", "yearly_acc_summ", "period_overview", "info"]

/-- The accumulator in its start-of-run state: every descriptor key is
present and maps to an empty country dict. -/
def initAccum (α : Type) : Accum α := accumKeys.map (fun k => (k, []))

/-- biaProcessor.store_to_accum.  Stores `data` under
(country, key[, acc]); storing on an occupied key raises RuntimeError and
leaves the accumulator unchanged. -/
def store_to_accum {α : Type} (accum : Accum α) (data : Option α)
    (country key : String) (acc : Option String) : Except AccumErr (Accum α) :=
  -- `if acc is not None and not str(acc).isnumeric(): raise ValueError`
  match acc with
  | some a =>
    if !isNumericStr a then .error .valueError
    else
      match alookup key accum with
      | none => .error .keyError       -- `_accum[key]` on an unknown descriptor
      | some cmap =>
        match alookup country cmap with
        | some (.nested m) =>
          -- `if country in _accum[key] and acc is not None: if acc in ...`
          if amem a m then .error .runtimeError
          else .ok (aset key (aset country (.nested (aset a data m)) cmap) accum)
        | some (.flat _) =>
          -- `acc in _accum[key][country]` where the slot holds plain data:
          -- the interpreter raises TypeError (slot is None) or misuses the
          -- frame; this mixed shape is never produced by the callers.
          .error .typeError
        | none =>
          -- `if country not in _accum[key]: _accum[key][country] = {}`
          .ok (aset key (aset country (.nested [(a, data)]) cmap) accum)
  | none =>
    match alookup key accum with
    | none => .error .keyError
    | some cmap =>
      -- `if country in _accum[key] and acc is None: raise RuntimeError`
      if amem country cmap then .error .runtimeError
      else .ok (aset key (aset country (.flat data) cmap) accum)

/-- A value fetched from the accumulator: either the stored (possibly
`None`) payload, or a whole account sub-dictionary when the caller fetches
an account-keyed descriptor without naming an account. -/
inductive FetchVal (α : Type) where
  | val (d : Option α)
  | dict (m : List (String × Option α))
  deriving DecidableEq

/-- biaProcessor.get_from_accum.  Fetches the value stored under
(country, key[, acc]); a key that was never stored raises. -/
def get_from_accum {α : Type} (accum : Accum α)
    (country key : String) (acc : Option String) : Except AccumErr (FetchVal α) :=
  match acc with
  | some a =>
    if !isNumericStr a then .error .valueError
    else
      match alookup key accum with
      | none => .error .keyError
      | some cmap =>
        match alookup country cmap with
        | none => .error .keyError
        | some (.flat _) =>
          -- subscripting plain stored data with an account:
          -- the interpreter raises (`None[acc]`)
          .error .typeError
        | some (.nested m) =>
          match alookup a m with
          | none => .error .keyError
          | some d => .ok (.val d)
  | none =>
    match alookup key accum with
    | none => .error .keyError
    | some cmap =>
      match alookup country cmap with
      | none => .error .keyError
      | some (.flat d) => .ok (.val d)
      | some (.nested m) => .ok (.dict m)

/-! ## Dictionary lemmas -/

theorem alookup_aset_self {α β : Type} [DecidableEq α] (k : α) (v : β)
    (d : List (α × β)) : alookup k (aset k v d) = some v := by
  induction d with
  | nil => simp [aset, alookup]
  | cons p rest ih =>
    obtain ⟨a, b⟩ := p
    by_cases h : a = k <;> simp [aset, alookup, h, ih]

theorem alookup_map_const {γ : Type} (l : List String) (k : String) :
    alookup k (l.map fun s => (s, ([] : List γ))) = none ∨
    alookup k (l.map fun s => (s, ([] : List γ))) = some [] := by
  induction l with
  | nil => left; rfl
  | cons a rest ih =>
    by_cases h : a = k
    · right; simp [alookup, h]
    · simpa [alookup, h] using ih

/-! ## Theorems for claim C2 -/

/-- Claim C2: a second call to `store_to_accum` with the same
(country, dataset-kind, optional account) key raises, regardless of the
value stored; the first stored value is left unchanged (a fetch still
returns it); and a fetch on a key that was never stored raises rather
than returning a default. -/
theorem C2_accumulator_write_once {α : Type} (accum accum' : Accum α)
    (d1 d2 : Option α) (country key : String) (acc : Option String)
    (h : store_to_accum accum d1 country key acc = .ok accum') :
    store_to_accum accum' d2 country key acc = .error .runtimeError ∧
    get_from_accum accum' country key acc = .ok (.val d1) ∧
    ∀ (c k : String) (a : Option String),
      ∃ e, get_from_accum (initAccum α) c k a = .error e := by
  refine ⟨?_, ?_, ?_⟩
  · -- the second store on the same key raises RuntimeError
    cases acc with
    | none =>
      unfold store_to_accum at h ⊢
      cases hk : alookup key accum with
      | none => simp [hk] at h
      | some cmap =>
        simp only [hk] at h
        by_cases hc : amem country cmap
        · simp [hc] at h
        · simp only [hc, if_neg, Bool.false_eq_true, if_false] at h
          cases h
          simp [alookup_aset_self, amem]
    | some a =>
      unfold store_to_accum at h ⊢
      by_cases hn : isNumericStr a
      · simp only [hn, Bool.not_true, Bool.false_eq_true, if_false] at h ⊢
        cases hk : alookup key accum with
        | none => simp [hk] at h
        | some cmap =>
          simp only [hk] at h
          cases hs : alookup country cmap with
          | none =>
            simp only [hs] at h
            cases h
            simp [alookup_aset_self, amem, alookup]
          | some slot =>
            cases slot with
            | flat d => simp [hs] at h
            | nested m =>
              simp only [hs] at h
              by_cases hm : amem a m
              · simp [hm] at h
              · simp only [hm, Bool.false_eq_true, if_false] at h
                cases h
                simp [alookup_aset_self, amem]
      · simp [hn] at h
  · -- the first stored value is unchanged: a fetch returns it
    cases acc with
    | none =>
      unfold store_to_accum at h
      unfold get_from_accum
      cases hk : alookup key accum with
      | none => simp [hk] at h
      | some cmap =>
        simp only [hk] at h
        by_cases hc : amem country cmap
        · simp [hc] at h
        · simp only [hc, Bool.false_eq_true, if_false] at h
          cases h
          simp [alookup_aset_self]
    | some a =>
      unfold store_to_accum at h
      unfold get_from_accum
      by_cases hn : isNumericStr a
      · simp only [hn, Bool.not_true, Bool.false_eq_true, if_false] at h ⊢
        cases hk : alookup key accum with
        | none => simp [hk] at h
        | some cmap =>
          simp only [hk] at h
          cases hs : alookup country cmap with
          | none =>
            simp only [hs] at h
            cases h
            simp [alookup_aset_self, alookup]
          | some slot =>
            cases slot with
            | flat d => simp [hs] at h
            | nested m =>
              simp only [hs] at h
              by_cases hm : amem a m
              · simp [hm] at h
              · simp only [hm, Bool.false_eq_true, if_false] at h
                cases h
                simp [alookup_aset_self]
      · simp [hn] at h
  · -- fetching from the start-of-run accumulator always raises
    intro c k a
    rcases alookup_map_const (γ := String × Slot α) accumKeys k with hk | hk <;>
      cases a with
      | none =>
        exact ⟨.keyError, by unfold get_from_accum initAccum; rw [hk] <;> simp [alookup]⟩
      | some s =>
        by_cases hn : isNumericStr s
        · exact ⟨.keyError, by unfold get_from_accum initAccum; simp only [hn,
            Bool.not_true, Bool.false_eq_true, if_false]; rw [hk] <;> simp [alookup]⟩
        · exact ⟨.valueError, by unfold get_from_accum; simp [hn]⟩

/-- First store used by the write-once witness. -/
def accumAfterFirst : Accum Nat :=
  aset "fbl3n_data" [("AT", Slot.flat (some 7))] (initAccum Nat)

/-- Witness for C2 at a concrete key and value pair. -/
theorem C2_accumulator_write_once_witness :
    store_to_accum (initAccum Nat) (some 7) "AT" "fbl3n_data" none =
      .ok accumAfterFirst ∧
    (store_to_accum accumAfterFirst (some 8) "AT" "fbl3n_data" none =
       .error .runtimeError ∧
     get_from_accum accumAfterFirst "AT" "fbl3n_data" none = .ok (.val (some 7)) ∧
     ∀ (c k : String) (a : Option String),
       ∃ e, get_from_accum (initAccum Nat) c k a = .error e) :=
  ⟨rfl, C2_accumulator_write_once (initAccum Nat) accumAfterFirst
    (some 7) (some 8) "AT" "fbl3n_data" none rfl⟩

/-! ## Checkpoint store (biaRecovery.py)

One checkpoint record per country.  Keys and default values follow
biaRecovery.reset_states verbatim; `fs10n_data_exported` holds a
tri-state per account (False / True / the string sentinel
"data_nonexist"). -/

/-- The tri-state value stored under `fs10n_data_exported` per account. -/
inductive FsFlag where
  | notDone
  | done
  | dataNonexist
  deriving DecidableEq

/-- A per-country checkpoint record, the value of `_ent_states[cntry]`. -/
structure Checkpoint where
  reconciled : Bool
  db_updated : Bool
  info : Bool
  fbl3n_data_exported : Bool
  fbl3n_data_processed : Bool
  se16_no_kona_data : Bool
  se16_kona_data_exported : Bool
  se16_kote_data_exported : Bool
  se16_kona_data_processed : Bool
  se16_kote_data_processed : Bool
  zsd25_glob_data_exported : Bool
  zsd25_glob_data_processed : Bool
  zsd25_glob_data_calculated : Bool
  zsd25_loc_data_exported : Bool
  zsd25_loc_data_processed : Bool
  zsd25_loc_data_calculated : Bool
  zsd25_no_glob_data : Bool
  yearly_summary_retrieved : Bool
  text_summary_retrieved : List (String × Bool)
  fs10n_data_exported : List (String × FsFlag)
  fs10n_data_processed : List (String × Bool)
  user_warning : String
  user_error : String
  deriving DecidableEq

/-- The durable store: country -> checkpoint record
(the JSON document `_ent_states`). -/
abbrev CpStore : Type := List (String × Checkpoint)

/-- The default all-false record biaRecovery.reset_states creates for one
country, with per-account sub-flags derived from the country's configured
account list (`for acc in rules[cntry]["accounts"]`). -/
def defaultCheckpoint (accs : List Nat) : Checkpoint :=
  { reconciled := false
    db_updated := false
    info := false
    fbl3n_data_exported := false
    fbl3n_data_processed := false
    se16_no_kona_data := false
    se16_kona_data_exported := false
    se16_kote_data_exported := false
    se16_kona_data_processed := false
    se16_kote_data_processed := false
    zsd25_glob_data_exported := false
    zsd25_glob_data_processed := false
    zsd25_glob_data_calculated := false
    zsd25_loc_data_exported := false
    zsd25_loc_data_processed := false
    zsd25_loc_data_calculated := false
    zsd25_no_glob_data := false
    yearly_summary_retrieved := false
    text_summary_retrieved := accs.map (fun a => (toString a, false))
    fs10n_data_exported := accs.map (fun a => (toString a, FsFlag.notDone))
    fs10n_data_processed := accs.map (fun a => (toString a, false))
    user_warning := ""
    user_error := "" }

/-- biaRecovery.reset_states: default checkpoints for the reconciled
countries; raises when the country list is empty.  `rules` gives each
country's configured account list. -/
def reset_states (countries : List String) (rules : String → List Nat) :
    Except String CpStore :=
  if countries = [] then .error "No country name provided!"
  else .ok (countries.map fun c => (c, defaultCheckpoint (rules c)))

/-- The recovery start-up routine (biaRecovery, `initialize`).  `file` is
the durable checkpoint document: `none` when the file is absent.  Returns
the in-memory states together with the final persisted file contents.
When the file is absent, clear_states first persists an empty mapping,
which is then read back; a loaded non-empty mapping is resumed verbatim,
and an empty one is replaced by freshly persisted defaults. -/
def recInitialize (file : Option CpStore) (countries : List String)
    (rules : String → List Nat) : Except String (CpStore × CpStore) :=
  if countries = [] then .error "No country name provided!"
  else
    let loaded : CpStore :=
      match file with
      | none => []      -- clear_states wrote an empty mapping, read back here
      | some c => c
    if loaded = [] then
      match reset_states countries rules with
      | .error e => .error e
      | .ok d => .ok (d, d)
    else
      -- previous states found: resume, file left as loaded
      .ok (loaded, loaded)

/-! ## Theorems for claim C10 -/

/-- Claim C10: a durable checkpoint file that exists but contains an empty
mapping makes recovery start-up behave exactly as if the file were absent:
default all-false states (with per-account sub-flags from each country's
configured accounts) are created and persisted, instead of resuming from
the loaded empty record. -/
theorem C10_empty_file_like_absent (countries : List String)
    (rules : String → List Nat) (h : countries ≠ []) :
    recInitialize (some []) countries rules = recInitialize none countries rules ∧
    recInitialize (some []) countries rules =
      .ok (countries.map (fun c => (c, defaultCheckpoint (rules c))),
           countries.map (fun c => (c, defaultCheckpoint (rules c)))) := by
  constructor
  · rfl
  · simp [recInitialize, reset_states, h]

/-- Witness for C10: one country with one configured account. -/
theorem C10_empty_file_like_absent_witness :
    (["AT"] : List String) ≠ [] ∧
    (recInitialize (some []) ["AT"] (fun _ => [12345678]) =
       recInitialize none ["AT"] (fun _ => [12345678]) ∧
     recInitialize (some []) ["AT"] (fun _ => [12345678]) =
       .ok ([("AT", defaultCheckpoint [12345678])],
            [("AT", defaultCheckpoint [12345678])])) :=
  ⟨by decide, C10_empty_file_like_absent ["AT"] (fun _ => [12345678]) (by decide)⟩

/-! ## Export stages of the orchestrator (biaController.py)

Each stage consults the checkpoint record first and is modelled as a
function of the record and an oracle giving the outcome of each call to
the external export collaborator (the SAP GUI session).  The trace of
collaborator invocations is returned alongside the result so that
"re-running does not invoke the collaborator" is a statement about the
trace. -/

/-- One invocation of the external export collaborator. -/
inductive Action where
  | fbl3nStart
  | fbl3nExport
  | fbl3nClose
  | se16Start
  | se16ExportKote
  | se16ExportKona
  | se16Close
  | zsd25Start
  | zsd25ExportLoc
  | zsd25ExportGlob
  | zsd25Close
  | fs10nStart
  | fs10nExport (acc : String)
  | fs10nClose
  deriving DecidableEq

/-- Outcome of a single collaborator export call: success, an ABAP/runtime
crash of the remote session, a definitive no-data response, or any other
exception. -/
inductive ExpResult where
  | ok
  | sapErr
  | noData
  | otherErr
  deriving DecidableEq

/-- The retry loop of biaController.export_fbl3n_data (`while nth <
n_attempts`), entered after the first export attempt raised
SapRuntimeError.  `i` numbers the export calls, `nth` counts failed
retries; only SapRuntimeError is caught inside the loop, so any other
exception raised there propagates out of the stage (`.error`).  Fuel 4
covers the at most 3 loop attempts. -/
def fbl3nRetryLoop (oracle : Nat → ExpResult) :
    Nat → Nat → Nat → Except Unit (Nat × List Action)
  | 0, _, nth => .ok (nth, [])
  | fuel + 1, i, nth =>
    if nth < 3 then
      match oracle i with
      | .ok => .ok (nth, [Action.fbl3nExport])
      | .sapErr =>
        match fbl3nRetryLoop oracle fuel (i + 1) (nth + 1) with
        | .error e => .error e
        | .ok (n, acts) => .ok (n, Action.fbl3nExport :: acts)
      | _ => .error ()
    else .ok (nth, [])

/-- biaController.export_fbl3n_data.  Skips (returning success, writing no
flag and starting no transaction) when `fbl3n_data_exported` is already
True; otherwise drives FBL3N with up to three retries on a session crash.
A no-data response or an unexpected exception on the first attempt is only
logged, so the flag is still saved (`nth` stays 0). -/
def export_fbl3n_data (cp : Checkpoint) (oracle : Nat → ExpResult) :
    Except Unit (Bool × Checkpoint × List Action) :=
  if cp.fbl3n_data_exported then .ok (true, cp, [])
  else
    match oracle 0 with
    | .sapErr =>
      match fbl3nRetryLoop oracle 4 1 0 with
      | .error e => .error e
      | .ok (nth, acts) =>
        let trace := Action.fbl3nStart :: Action.fbl3nExport :: acts ++ [Action.fbl3nClose]
        if nth < 3 then .ok (true, { cp with fbl3n_data_exported := true }, trace)
        else .ok (false, cp, trace)
    | _ =>
      .ok (true, { cp with fbl3n_data_exported := true },
           [Action.fbl3nStart, Action.fbl3nExport, Action.fbl3nClose])

/-- biaController.export_se16_kote_data.  Skips when
`se16_kote_data_exported` is True; otherwise one export attempt, any
exception yields failure without a flag write. -/
def export_se16_kote_data (cp : Checkpoint) (res : ExpResult) :
    Bool × Checkpoint × List Action :=
  if cp.se16_kote_data_exported then (true, cp, [])
  else
    let trace := [Action.se16Start, Action.se16ExportKote, Action.se16Close]
    match res with
    | .ok => (true, { cp with se16_kote_data_exported := true }, trace)
    | _ => (false, cp, trace)

/-- biaController.export_se16_kona_data.  Skips when
`se16_kona_data_exported` is True; a no-data response records the
`se16_no_kona_data` flag and still reports success. -/
def export_se16_kona_data (cp : Checkpoint) (res : ExpResult) :
    Bool × Checkpoint × List Action :=
  if cp.se16_kona_data_exported then (true, cp, [])
  else
    let trace := [Action.se16Start, Action.se16ExportKona, Action.se16Close]
    match res with
    | .noData => (true, { cp with se16_no_kona_data := true }, trace)
    | .ok => (true, { cp with se16_kona_data_exported := true }, trace)
    | _ => (false, cp, trace)

/-- biaController.export_zsd25_local_data.  Skips when
`zsd25_loc_data_exported` is True; the `exported` variable is initialised
True and never reset, so the stage reports success even when the export
attempt raised (only the flag write is skipped then). -/
def export_zsd25_local_data (cp : Checkpoint) (res : ExpResult) :
    Bool × Checkpoint × List Action :=
  if cp.zsd25_loc_data_exported then (true, cp, [])
  else
    let trace := [Action.zsd25Start, Action.zsd25ExportLoc, Action.zsd25Close]
    match res with
    | .ok => (true, { cp with zsd25_loc_data_exported := true }, trace)
    | _ => (true, cp, trace)

/-- biaController.export_zsd25_global_data.  Skips when any of
`se16_no_kona_data`, `zsd25_glob_data_exported` or `zsd25_no_glob_data`
is True; a no-data response records `zsd25_no_glob_data`; like the local
variant, the stage always reports success. -/
def export_zsd25_global_data (cp : Checkpoint) (res : ExpResult) :
    Bool × Checkpoint × List Action :=
  if cp.se16_no_kona_data then (true, cp, [])
  else if cp.zsd25_glob_data_exported then (true, cp, [])
  else if cp.zsd25_no_glob_data then (true, cp, [])
  else
    let trace := [Action.zsd25Start, Action.zsd25ExportGlob, Action.zsd25Close]
    match res with
    | .noData => (true, { cp with zsd25_no_glob_data := true }, trace)
    | .ok => (true, { cp with zsd25_glob_data_exported := true }, trace)
    | _ => (true, cp, trace)

/-- The per-account export loop of biaController.export_fs10n_data.  A
missing account sub-key in the checkpoint is a KeyError (`.error`).  An
account flagged True or "data_nonexist" is skipped; a no-data response
saves the "data_nonexist" sentinel; any other exception aborts the stage
with failure (the transaction is closed by the caller). -/
def fs10nLoop (oracle : String → ExpResult) :
    List String → Checkpoint → List Action → Except Unit (Bool × Checkpoint × List Action)
  | [], cp, acts => .ok (true, cp, acts)
  | a :: rest, cp, acts =>
    match alookup a cp.fs10n_data_exported with
    | none => .error ()
    | some .dataNonexist => fs10nLoop oracle rest cp acts
    | some .done => fs10nLoop oracle rest cp acts
    | some .notDone =>
      let acts := acts ++ [Action.fs10nExport a]
      match oracle a with
      | .noData =>
        fs10nLoop oracle rest
          { cp with fs10n_data_exported := aset a FsFlag.dataNonexist cp.fs10n_data_exported }
          acts
      | .ok =>
        fs10nLoop oracle rest
          { cp with fs10n_data_exported := aset a FsFlag.done cp.fs10n_data_exported }
          acts
      | _ => .ok (false, cp, acts)

/-- biaController.export_fs10n_data.  Unlike the other export stages,
`fs10n.start(sess)` runs BEFORE any checkpoint flag is consulted; the
skip decision is taken per account inside the loop, and the transaction
is closed at the end in every case. -/
def export_fs10n_data (cp : Checkpoint) (oracle : String → ExpResult)
    (accs : List String) : Except Unit (Bool × Checkpoint × List Action) :=
  match fs10nLoop oracle accs cp [Action.fs10nStart] with
  | .error e => .error e
  | .ok (b, cp', acts) => .ok (b, cp', acts ++ [Action.fs10nClose])

/-! ## Theorems for claim C1 -/

theorem fs10nLoop_all_done (oracle : String → ExpResult) (accs : List String)
    (cp : Checkpoint) (acts : List Action)
    (h : ∀ a ∈ accs, alookup a cp.fs10n_data_exported = some FsFlag.done) :
    fs10nLoop oracle accs cp acts = .ok (true, cp, acts) := by
  induction accs with
  | nil => rfl
  | cons a rest ih =>
    have ha := h a (List.mem_cons_self a rest)
    have hrest : ∀ x ∈ rest, alookup x cp.fs10n_data_exported = some FsFlag.done :=
      fun x hx => h x (List.mem_cons_of_mem a hx)
    simp [fs10nLoop, ha, ih hrest]

/-- A checkpoint record marking every stage of one country complete
(single reconciled account 12345678). -/
def cpAllDone : Checkpoint :=
  { reconciled := true
    db_updated := true
    info := true
    fbl3n_data_exported := true
    fbl3n_data_processed := true
    se16_no_kona_data := false
    se16_kona_data_exported := true
    se16_kote_data_exported := true
    se16_kona_data_processed := true
    se16_kote_data_processed := true
    zsd25_glob_data_exported := true
    zsd25_glob_data_processed := true
    zsd25_glob_data_calculated := true
    zsd25_loc_data_exported := true
    zsd25_loc_data_processed := true
    zsd25_loc_data_calculated := true
    zsd25_no_glob_data := false
    yearly_summary_retrieved := true
    text_summary_retrieved := [("12345678", true)]
    fs10n_data_exported := [("12345678", FsFlag.done)]
    fs10n_data_processed := [("12345678", true)]
    user_warning := ""
    user_error := "" }

/-- Counterexample to C1 as stated: the FS10N export stage, run over a
checkpoint whose every account flag is complete, still produces a
non-empty trace of collaborator invocations (it starts and closes the
FS10N transaction before/after consulting the per-account flags), so not
every export stage returns success without invoking the external export
collaborator.  The checkpoint record itself is unchanged. -/
theorem C1_counterexample :
    export_fs10n_data cpAllDone (fun _ => ExpResult.otherErr) ["12345678"] =
      .ok (true, cpAllDone, [Action.fs10nStart, Action.fs10nClose]) ∧
    ([Action.fs10nStart, Action.fs10nClose] : List Action) ≠ [] :=
  ⟨rfl, by decide⟩

/-- Claim C1 (amended): for the FBL3N, SE16-KOTE, SE16-KONA, ZSD25-local
and ZSD25-global export stages, a checkpoint flag already recorded as
complete makes the stage return success immediately, with no collaborator
invocation and no checkpoint write; the FS10N export stage consults its
per-account flags only after starting the FS10N transaction, so with
every account flag complete it performs no export and writes no flag but
still starts and closes the transaction.  In every case the checkpoint
record is returned unchanged, so a second full run leaves the Checkpoint
Store unchanged. -/
theorem C1_skip_on_complete (cp : Checkpoint) (o1 : Nat → ExpResult)
    (r2 r3 r4 r5 : ExpResult) (o6 : String → ExpResult) (accs : List String)
    (h1 : cp.fbl3n_data_exported = true)
    (h2 : cp.se16_kote_data_exported = true)
    (h3 : cp.se16_kona_data_exported = true)
    (h4 : cp.zsd25_loc_data_exported = true)
    (h5 : cp.zsd25_glob_data_exported = true)
    (h6 : ∀ a ∈ accs, alookup a cp.fs10n_data_exported = some FsFlag.done) :
    export_fbl3n_data cp o1 = .ok (true, cp, []) ∧
    export_se16_kote_data cp r2 = (true, cp, []) ∧
    export_se16_kona_data cp r3 = (true, cp, []) ∧
    export_zsd25_local_data cp r4 = (true, cp, []) ∧
    export_zsd25_global_data cp r5 = (true, cp, []) ∧
    export_fs10n_data cp o6 accs =
      .ok (true, cp, [Action.fs10nStart, Action.fs10nClose]) := by
  refine ⟨?_, ?_, ?_, ?_, ?_, ?_⟩
  · simp [export_fbl3n_data, h1]
  · simp [export_se16_kote_data, h2]
  · simp [export_se16_kona_data, h3]
  · simp [export_zsd25_local_data, h4]
  · cases hk : cp.se16_no_kona_data <;>
      simp [export_zsd25_global_data, h5, hk]
  · simp [export_fs10n_data, fs10nLoop_all_done o6 accs cp _ h6]

/-- Witness for C1 (amended) at the all-complete checkpoint record. -/
theorem C1_skip_on_complete_witness :
    export_fbl3n_data cpAllDone (fun _ => ExpResult.sapErr) = .ok (true, cpAllDone, []) ∧
    export_se16_kote_data cpAllDone ExpResult.otherErr = (true, cpAllDone, []) ∧
    export_se16_kona_data cpAllDone ExpResult.otherErr = (true, cpAllDone, []) ∧
    export_zsd25_local_data cpAllDone ExpResult.otherErr = (true, cpAllDone, []) ∧
    export_zsd25_global_data cpAllDone ExpResult.otherErr = (true, cpAllDone, []) ∧
    export_fs10n_data cpAllDone (fun _ => ExpResult.otherErr) ["12345678"] =
      .ok (true, cpAllDone, [Action.fs10nStart, Action.fs10nClose]) :=
  C1_skip_on_complete cpAllDone (fun _ => ExpResult.sapErr)
    ExpResult.otherErr ExpResult.otherErr ExpResult.otherErr ExpResult.otherErr
    (fun _ => ExpResult.otherErr) ["12345678"]
    rfl rfl rfl rfl rfl (by decide)

/-! ## Exchange-rate acquisition (biaController.reconcile)

`rates` is the portal oracle: days are numbered by integers, `none` models
the definitive "no rate published for that day" response (ResponseError).
The timeout retry (same request, longer timeout) is orthogonal to the
claims and not modelled. -/

/-- The backward walk of biaController.reconcile.  The loop increments
`past_days` once per iteration and once more inside the ResponseError
handler, so after every definitive no-rate response the next day probed
is two further back; with the `past_days <= 5` bound the offsets probed
are 1, 3 and 5.  Fuel 6 covers all iterations. -/
def walkBack (rates : Int → Option ℚ) (fxDate : Int) :
    Nat → Int → Option (ℚ × Int)
  | 0, _ => none
  | fuel + 1, pastDays =>
    if pastDays ≤ 5 then
      let prevDay := fxDate - pastDays
      match rates prevDay with
      | some r => some (r, prevDay)
      | none => walkBack rates fxDate fuel (pastDays + 2)
    else none

/-- Outcome of the exchange-rate acquisition phase. -/
inductive FxOutcome where
  | exact (r : ℚ)
  | fallback (r : ℚ) (day : Int)
  | errorRecorded
  deriving DecidableEq

/-- The deferred user warning recorded when a prior day's rate was
substituted (the source interpolates the concrete dates into the text). -/
def fxFallbackWarning : String :=
  "The exchange rate was not available on the portal for the given day. An exchange rate as per a prior day was used instead."

/-- The deferred user error recorded when no rate could be obtained (the
source interpolates the concrete dates into the text). -/
def fxMissingError : String :=
  "The exchange rate was not available on the portal for the given day."

/-- The exchange-rate acquisition phase of biaController.reconcile: try
the exact conversion date; when no rate is published and the day is not
ultimo+1, walk backward (offsets 1, 3, 5) and record a user warning when
a prior day's rate is substituted; when the day is ultimo+1, or the walk
finds nothing, record a user error and abort the country's reconciliation
(the Bool component is False). -/
def reconcileFxPhase (cp : Checkpoint) (rates : Int → Option ℚ)
    (fxDate : Int) (isUplusone : Bool) : FxOutcome × Checkpoint × Bool :=
  match rates fxDate with
  | some r => (.exact r, cp, true)
  | none =>
    if isUplusone then
      (.errorRecorded, { cp with user_error := fxMissingError }, false)
    else
      match walkBack rates fxDate 6 1 with
      | some (r, d) => (.fallback r d, { cp with user_warning := fxFallbackWarning }, true)
      | none => (.errorRecorded, { cp with user_error := fxMissingError }, false)

/-! ## Theorems for claim C4 -/

/-- Portal oracle for the C4 counterexample: a rate is published two days
before the requested day 10 and on no other day. -/
def ratesOnlyDayEight : Int → Option ℚ :=
  fun d => if d = 8 then some (11 / 10 : ℚ) else none

/-- Counterexample to C4 as stated: on a non-period-end day whose
requested date has no published rate, a rate published 2 days back (well
inside the 5-day window) is never used — the walk probes only offsets
1, 3 and 5 — so the phase records a user error and returns failure
instead of substituting the day-8 rate with a warning. -/
theorem C4_counterexample :
    (reconcileFxPhase cpAllDone ratesOnlyDayEight 10 false).1 = .errorRecorded ∧
    (reconcileFxPhase cpAllDone ratesOnlyDayEight 10 false).2.2 = false ∧
    (reconcileFxPhase cpAllDone ratesOnlyDayEight 10 false).2.1.user_error ≠ "" ∧
    ratesOnlyDayEight (10 - 2) = some (11 / 10 : ℚ) ∧ (2 : Int) ≤ 5 := by
  refine ⟨rfl, rfl, ?_, rfl, by decide⟩
  simp [reconcileFxPhase, ratesOnlyDayEight, walkBack, fxMissingError]

/-- Claim C4 (amended): when the portal has no rate for the requested
date, a day that is not ultimo+1 probes the prior days at offsets 1, 3
and 5 (after every definitive no-rate response an extra day is skipped),
uses the first published rate found among those probes and records a
non-empty user warning; on ultimo+1, or when none of the probed days has
a rate, a non-empty user error is durably recorded and the country's
reconciliation returns failure. -/
theorem C4_fx_fallback_ladder (cp : Checkpoint) (rates : Int → Option ℚ)
    (d : Int) (h0 : rates d = none) :
    (reconcileFxPhase cp rates d true =
       (.errorRecorded, { cp with user_error := fxMissingError }, false)) ∧
    (∀ r, rates (d - 1) = some r →
       reconcileFxPhase cp rates d false =
         (.fallback r (d - 1), { cp with user_warning := fxFallbackWarning }, true)) ∧
    (∀ r, rates (d - 1) = none → rates (d - 3) = some r →
       reconcileFxPhase cp rates d false =
         (.fallback r (d - 3), { cp with user_warning := fxFallbackWarning }, true)) ∧
    (∀ r, rates (d - 1) = none → rates (d - 3) = none → rates (d - 5) = some r →
       reconcileFxPhase cp rates d false =
         (.fallback r (d - 5), { cp with user_warning := fxFallbackWarning }, true)) ∧
    (rates (d - 1) = none → rates (d - 3) = none → rates (d - 5) = none →
       reconcileFxPhase cp rates d false =
         (.errorRecorded, { cp with user_error := fxMissingError }, false)) ∧
    fxFallbackWarning ≠ "" ∧ fxMissingError ≠ "" := by
  refine ⟨?_, ?_, ?_, ?_, ?_, by decide, by decide⟩
  · simp [reconcileFxPhase, h0]
  · intro r h1
    simp [reconcileFxPhase, h0, walkBack, h1]
  · intro r h1 h3
    simp [reconcileFxPhase, h0, walkBack, h1, h3]
  · intro r h1 h3 h5
    simp [reconcileFxPhase, h0, walkBack, h1, h3, h5]
  · intro h1 h3 h5
    simp [reconcileFxPhase, h0, walkBack, h1, h3, h5]

/-- Portal oracle for the C4 witness: a rate is published three days
before the requested day 10 and on no other day. -/
def ratesOnlyDaySeven : Int → Option ℚ :=
  fun d => if d = 7 then some (21 / 20 : ℚ) else none

/-- Witness for C4 (amended): requested day 10 has no rate, day 7 does. -/
theorem C4_fx_fallback_ladder_witness :
    ratesOnlyDaySeven 10 = none ∧
    reconcileFxPhase cpAllDone ratesOnlyDaySeven 10 false =
      (.fallback (21 / 20 : ℚ) (10 - 3),
       { cpAllDone with user_warning := fxFallbackWarning }, true) :=
  ⟨rfl, ((C4_fx_fallback_ladder cpAllDone ratesOnlyDaySeven 10 rfl).2.2.1
    (21 / 20 : ℚ) rfl rfl)⟩

/-! ## Theorems for claim C9 -/

/-- The mutual-exclusion assertion of biaController.send_notification:
`assert not (warn_msg != "" and err_msg != "")`. -/
def notificationAssertOk (cp : Checkpoint) : Bool :=
  !(cp.user_warning != "" && cp.user_error != "")

/-- Checkpoint after a first reconcile attempt on an ultimo+1 day where the
portal has no rate at all: a user error is durably recorded. -/
def cpAfterRun1 : Checkpoint :=
  (reconcileFxPhase cpAllDone (fun _ => none) 10 true).2.1

/-- Checkpoint after the resumed run's reconcile attempt, where a prior
day's rate is found: a user warning is recorded on top of the persisted
user error of the first run, which no code path ever clears. -/
def cpAfterRun2 : Checkpoint :=
  (reconcileFxPhase cpAfterRun1 ratesOnlyDaySeven 10 false).2.1

/-- Claim C9 fails on the code (code bug): a run that records a user error
and aborts leaves the error in the durable store; the resumed run loads it
verbatim, and a reconcile attempt that substitutes a prior day's rate then
records a user warning without clearing the error, so both messages are
non-empty when the user notification is produced — the mutual-exclusion
assertion in send_notification fires on this state. -/
theorem C9_warning_and_error_both_set :
    cpAfterRun1.user_error = fxMissingError ∧
    (reconcileFxPhase cpAllDone (fun _ => none) 10 true).2.2 = false ∧
    recInitialize (some [("AT", cpAfterRun1)]) ["AT"] (fun _ => [12345678]) =
      .ok ([("AT", cpAfterRun1)], [("AT", cpAfterRun1)]) ∧
    cpAfterRun2.user_warning ≠ "" ∧ cpAfterRun2.user_error ≠ "" ∧
    notificationAssertOk cpAfterRun2 = false :=
  ⟨rfl, rfl, rfl, by decide, by decide, by decide⟩

/-! ## Rounding to two decimals

pandas `.round(2)` rounds half to even on the mathematical value; machine
reals are modelled by the rationals. -/

/-- Round half to even to an integer. -/
def roundHalfEven (q : ℚ) : Int :=
  let f := Rat.floor q
  if q - f < 1 / 2 then f
  else if 1 / 2 < q - f then f + 1
  else if f % 2 = 0 then f else f + 1

/-- Round to two decimal places, half to even. -/
def round2 (q : ℚ) : ℚ := (roundHalfEven (q * 100) : ℚ) / 100

/-- A value that is exact in two decimal places (a whole number of cents). -/
def IsCent (q : ℚ) : Prop := ∃ z : Int, q = (z : ℚ) / 100

theorem ratFloor_intCast (z : Int) : Rat.floor (z : ℚ) = z := by
  rw [Rat.floor_def']
  simp

theorem roundHalfEven_intCast (z : Int) : roundHalfEven (z : ℚ) = z := by
  norm_num [roundHalfEven, ratFloor_intCast]

theorem round2_isCent (q : ℚ) : IsCent (round2 q) := ⟨roundHalfEven (q * 100), rfl⟩

theorem round2_of_isCent (q : ℚ) (h : IsCent q) : round2 q = q := by
  obtain ⟨z, rfl⟩ := h
  have h100 : ((z : ℚ) / 100) * 100 = (z : ℚ) := by
    field_simp
  rw [round2, h100, roundHalfEven_intCast]

theorem IsCent.add {a b : ℚ} (ha : IsCent a) (hb : IsCent b) : IsCent (a + b) := by
  obtain ⟨x, rfl⟩ := ha
  obtain ⟨y, rfl⟩ := hb
  exact ⟨x + y, by push_cast; ring⟩

theorem IsCent.sub {a b : ℚ} (ha : IsCent a) (hb : IsCent b) : IsCent (a - b) := by
  obtain ⟨x, rfl⟩ := ha
  obtain ⟨y, rfl⟩ := hb
  exact ⟨x - y, by push_cast; ring⟩

/-! ## GL text-summary lines and subledger rows (biaProcessor.py)

A text-summary line is one row of `txt_summs[acc]`: posted amounts
subtotalled by the text-derived key.  A subledger row carries the
claim-relevant columns of the ZSD25 extracts; the remaining
identification columns are carried through the calculations unchanged and
do not influence any computed figure. -/

structure SummLine where
  Condition : Option String
  Category : Option String
  Customer : Option Nat
  Agreement : Option Nat
  Note : Option String
  LC_Amount_Sum : ℚ
  deriving DecidableEq

structure ZsdRow where
  agreement : Nat
  currency : String
  openAccruals : ℚ
  deriving DecidableEq

/-! ## Local-entity bonus calculation (biaProcessor.calculate_le_bonus_data) -/

/-- `drop_duplicates(subset = "Agreement")`: keep the first row of each
agreement number. -/
def dropDupAgreements : List ZsdRow → List Nat → List ZsdRow
  | [], _ => []
  | r :: rest, seen =>
    if r.agreement ∈ seen then dropDupAgreements rest seen
    else r :: dropDupAgreements rest (r.agreement :: seen)

/-- Sum of the text-subtotal amounts posted against one agreement
(`groupby("Agreement").sum()` followed by a left merge with `fillna(0)`;
lines with a missing agreement are dropped by the groupby). -/
def agrSum (g : Nat) (lines : List SummLine) : ℚ :=
  ((lines.filter (fun l => l.Agreement = some g)).map (fun l => l.LC_Amount_Sum)).sum

/-- One output row of the local-entity bonus calculation. -/
structure LeCalcRow where
  agreement : Nat
  currency : String
  openAccruals : ℚ
  corrToLC : ℚ
  lcOpenAccr : ℚ
  accCols : List (String × ℚ)
  difference : ℚ
  deriving DecidableEq

/-- biaProcessor.calculate_le_bonus_data: deduplicate agreements, compute
the currency correction (`Corr_to_LC` is assigned 0.0 and only the rows
with a currency differing from the local currency are updated, and only
when the exchange rate is not exactly 1.0), add the correction to the
reported accrual, merge the per-account GL text subtotals (missing
matches default to 0), and compute the rounded per-agreement difference. -/
def calculate_le_bonus_data (txtSumms : List (String × List SummLine))
    (leData : List ZsdRow) (locCurr : String) (exRate : ℚ) : List LeCalcRow :=
  (dropDupAgreements leData []).map fun r =>
    let corr : ℚ :=
      if exRate ≠ 1 ∧ r.currency ≠ locCurr
      then r.openAccruals * exRate - r.openAccruals
      else 0
    let accCols := txtSumms.map fun p => (p.1, agrSum r.agreement p.2)
    { agreement := r.agreement
      currency := r.currency
      openAccruals := r.openAccruals
      corrToLC := corr
      lcOpenAccr := r.openAccruals + corr
      accCols := accCols
      difference := round2 ((accCols.map Prod.snd).sum - (r.openAccruals + corr)) }

/-! ## Theorems for claim C3 -/

/-- Claim C3: in the local-entity bonus calculation, for every output
row, the local-currency accrual equals accrual + correction; when the
exchange rate differs from 1.0 and the row's currency differs from the
local currency the correction equals accrual x rate - accrual; when the
exchange rate equals exactly 1.0 the correction is 0.0 for every row,
even when the row's currency differs from the local currency. -/
theorem C3_currency_correction (txtSumms : List (String × List SummLine))
    (leData : List ZsdRow) (locCurr : String) (exRate : ℚ) :
    ∀ out ∈ calculate_le_bonus_data txtSumms leData locCurr exRate,
      out.lcOpenAccr = out.openAccruals + out.corrToLC ∧
      (exRate ≠ 1 → out.currency ≠ locCurr →
        out.corrToLC = out.openAccruals * exRate - out.openAccruals) ∧
      (exRate = 1 → out.corrToLC = 0) := by
  intro out hout
  unfold calculate_le_bonus_data at hout
  rw [List.mem_map] at hout
  obtain ⟨r, _, rfl⟩ := hout
  refine ⟨rfl, ?_, ?_⟩
  · intro h1 hc
    simp only [if_pos (And.intro h1 hc)]
  · intro h1
    have : ¬(exRate ≠ 1 ∧ r.currency ≠ locCurr) := by
      intro hcon
      exact hcon.1 h1
    simp only [if_neg this]

/-- Witness for C3 at the spec's example: accrual 1000.00, rate 1.05,
currencies differing, yielding correction 50.00 and corrected accrual
1050.00. -/
theorem C3_currency_correction_witness :
    ∃ out ∈ calculate_le_bonus_data [] [⟨500000001, "EUR", 1000⟩] "CZK" (21 / 20),
      out.openAccruals = 1000 ∧
      out.lcOpenAccr = out.openAccruals + out.corrToLC ∧
      out.corrToLC = out.openAccruals * (21 / 20) - out.openAccruals ∧
      out.corrToLC = 50 ∧ out.lcOpenAccr = 1050 := by
  have h := C3_currency_correction [] [⟨500000001, "EUR", 1000⟩] "CZK" (21 / 20)
    _ (List.mem_singleton_self _)
  have hcorr := h.2.1 (by norm_num) (by decide)
  refine ⟨_, List.mem_singleton_self _, rfl, h.1, hcorr, ?_, ?_⟩
  · rw [hcorr]
    show (1000 : ℚ) * (21 / 20) - 1000 = 50
    norm_num
  · rw [h.1, hcorr]
    show (1000 : ℚ) + ((1000 : ℚ) * (21 / 20) - 1000) = 1050
    norm_num

/-! ## Agreement-state validation (biaProcessor.check_agreement_states) -/

/-- `pandas.unique` on an integer column: the distinct values in order of
first appearance (`seen` accumulates the values already emitted). -/
def uniqueNat : List Nat → List Nat → List Nat
  | [], _ => []
  | x :: rest, seen =>
    if x ∈ seen then uniqueNat rest seen
    else x :: uniqueNat rest (x :: seen)

/-- The open-agreement list built inside check_agreement_states:
`list(le_bon["Agreement"].unique())`, extended with the head-quarter
extract's agreements when that extract is present. -/
def openAgreements (leBon : List ZsdRow) (hqBon : Option (List ZsdRow)) : List Nat :=
  uniqueNat (leBon.map ZsdRow.agreement) [] ++
    (match hqBon with
     | some h => uniqueNat (h.map ZsdRow.agreement) []
     | none => [])

/-- Any of the four text-derived identification fields missing. -/
def missingTextField (l : SummLine) : Bool :=
  l.Condition.isNone || l.Category.isNone || l.Customer.isNone || l.Agreement.isNone

/-- `Agreement not in open_agreements` in the second query: a missing
agreement is not in the list (never decisive — such a line with a
non-zero amount is already flagged by the first query). -/
def agreementNotOpen (ag : Option Nat) (openAgs : List Nat) : Bool :=
  match ag with
  | some a => decide (a ∉ openAgs)
  | none => true

/-- The net per-line status of the two flagging queries in
check_agreement_states: `x` for a non-zero-amount line with incomplete
text-derived fields, else `CHECK` for a non-zero-amount line posted
against an agreement absent from every open-agreement list, else no
flag. -/
def markStatus (openAgs : List Nat) (l : SummLine) : String :=
  if missingTextField l ∧ l.LC_Amount_Sum ≠ 0 then "x"
  else if l.LC_Amount_Sum ≠ 0 ∧ agreementNotOpen l.Agreement openAgs then "CHECK"
  else ""

/-- Lexicographic comparison of character lists (Python string order). -/
def strLeb : List Char → List Char → Bool
  | [], _ => true
  | _ :: _, [] => false
  | a :: as, b :: bs =>
    if a < b then true else if b < a then false else strLeb as bs

/-- One insertion step of the descending sort on the Status column. -/
def insertStatusDesc (p : SummLine × String) :
    List (SummLine × String) → List (SummLine × String)
  | [] => [p]
  | q :: rest =>
    if strLeb q.2.data p.2.data then p :: q :: rest else q :: insertStatusDesc p rest

/-- `sort_values("Status", ascending = False)`.  The source's sort kind
(quicksort) fixes no order among equal keys; an insertion sort on the
Status key stands in for it, and no claim depends on the row order. -/
def sortStatusDesc (l : List (SummLine × String)) : List (SummLine × String) :=
  l.foldr insertStatusDesc []

/-- biaProcessor.check_agreement_states: per account, assign each
text-summary line its status flag and sort by status (descending). -/
def check_agreement_states (txtSumms : List (String × List SummLine))
    (leBon : List ZsdRow) (hqBon : Option (List ZsdRow)) :
    List (String × List (SummLine × String)) :=
  let openAgs := openAgreements leBon hqBon
  txtSumms.map fun p =>
    (p.1, sortStatusDesc (p.2.map fun l => (l, markStatus openAgs l)))

/-! ## Theorems for claim C5 -/

theorem mem_insertStatusDesc (p x : SummLine × String) :
    ∀ l, x ∈ insertStatusDesc p l ↔ x = p ∨ x ∈ l := by
  intro l
  induction l with
  | nil => simp [insertStatusDesc]
  | cons q rest ih =>
    by_cases h : strLeb q.2.data p.2.data = true
    · simp [insertStatusDesc, h]
    · simp only [insertStatusDesc, if_neg h, List.mem_cons, ih]
      tauto

theorem mem_sortStatusDesc (x : SummLine × String) :
    ∀ l, x ∈ sortStatusDesc l ↔ x ∈ l := by
  intro l
  induction l with
  | nil => simp [sortStatusDesc]
  | cons q rest ih =>
    simp only [sortStatusDesc, List.foldr_cons, List.mem_cons]
    rw [mem_insertStatusDesc]
    rw [sortStatusDesc] at ih
    rw [ih]

theorem mem_uniqueNat (a : Nat) :
    ∀ (l seen : List Nat), a ∈ uniqueNat l seen ↔ a ∈ l ∧ a ∉ seen := by
  intro l
  induction l with
  | nil => simp [uniqueNat]
  | cons x rest ih =>
    intro seen
    by_cases hx : x ∈ seen
    · rw [uniqueNat, if_pos hx, ih seen]
      constructor
      · exact fun h => ⟨List.mem_cons_of_mem x h.1, h.2⟩
      · rintro ⟨h1, h2⟩
        rcases List.mem_cons.mp h1 with rfl | h1
        · exact absurd hx h2
        · exact ⟨h1, h2⟩
    · rw [uniqueNat, if_neg hx]
      rw [List.mem_cons, ih (x :: seen)]
      constructor
      · rintro (rfl | ⟨h1, h2⟩)
        · exact ⟨List.mem_cons_self _ _, hx⟩
        · exact ⟨List.mem_cons_of_mem x h1, fun hs => h2 (List.mem_cons_of_mem x hs)⟩
      · rintro ⟨h1, h2⟩
        rcases List.mem_cons.mp h1 with rfl | h1
        · exact Or.inl rfl
        · by_cases hax : a = x
          · exact Or.inl hax
          · exact Or.inr ⟨h1, fun hs => (List.mem_cons.mp hs).elim hax h2⟩

/-- Claim C5: in the agreement-state validation, the open-agreement list
covers exactly the local-entity extract's agreements plus the
head-quarter extract's when present; every output line carries the status
of the two flagging queries: a non-zero-amount line with a missing
Condition, Category, Customer or Agreement is flagged `x`; a
non-zero-amount line with complete fields whose agreement is not among
the open agreements is flagged `CHECK`; an amount-0 line gets no flag;
and no line carries both flags (`x` takes priority). -/
theorem C5_agreement_state_validation (txtSumms : List (String × List SummLine))
    (leBon : List ZsdRow) (hqBon : Option (List ZsdRow)) :
    (∀ g, g ∈ openAgreements leBon hqBon ↔
      (g ∈ leBon.map ZsdRow.agreement ∨
       ∃ h, hqBon = some h ∧ g ∈ h.map ZsdRow.agreement)) ∧
    ∀ acc lines, (acc, lines) ∈ check_agreement_states txtSumms leBon hqBon →
      ∀ l st, (l, st) ∈ lines →
        st = markStatus (openAgreements leBon hqBon) l ∧
        (missingTextField l = true → l.LC_Amount_Sum ≠ 0 → st = "x") ∧
        (l.LC_Amount_Sum ≠ 0 → missingTextField l = false →
          (∀ a, l.Agreement = some a → a ∉ openAgreements leBon hqBon) → st = "CHECK") ∧
        (l.LC_Amount_Sum = 0 → st = "") ∧
        ¬(st = "x" ∧ st = "CHECK") := by
  constructor
  · intro g
    cases hqBon with
    | none => simp [openAgreements, mem_uniqueNat]
    | some hq => simp [openAgreements, mem_uniqueNat]
  · intro acc lines hmem l st hline
    unfold check_agreement_states at hmem
    rw [List.mem_map] at hmem
    obtain ⟨⟨acc0, lines0⟩, _, heq⟩ := hmem
    rw [Prod.mk.injEq] at heq
    obtain ⟨h1eq, h2eq⟩ := heq
    subst h1eq
    subst h2eq
    rw [mem_sortStatusDesc, List.mem_map] at hline
    obtain ⟨l0, _, heq0⟩ := hline
    rw [Prod.mk.injEq] at heq0
    obtain ⟨hleq, hsteq⟩ := heq0
    subst hleq
    subst hsteq
    refine ⟨rfl, ?_, ?_, ?_, ?_⟩
    · intro hmiss hamt
      unfold markStatus
      rw [if_pos ⟨hmiss, hamt⟩]
    · intro hamt hmiss hag
      have hcond2 : l0.LC_Amount_Sum ≠ 0 ∧
          agreementNotOpen l0.Agreement (openAgreements leBon hqBon) = true := by
        refine ⟨hamt, ?_⟩
        unfold agreementNotOpen
        cases hA : l0.Agreement with
        | none => rfl
        | some a => simpa using hag a hA
      unfold markStatus
      rw [if_neg (by simp [hmiss]), if_pos hcond2]
    · intro h0
      unfold markStatus
      rw [if_neg (by simp [h0]), if_neg (by simp [h0])]
    · rintro ⟨hx1, hx2⟩
      rw [hx1] at hx2
      exact absurd hx2 (by decide)

/-- Line with a non-zero amount and a missing agreement (and missing
other text-derived fields). -/
def c5L1 : SummLine := ⟨none, none, none, none, none, 250⟩

/-- Line with a non-zero amount posted against the unknown agreement
99999999, all text-derived fields present. -/
def c5L2 : SummLine := ⟨some "ZBON", some "B1", some 7, some 99999999, none, 250⟩

/-- Amount-0 line with missing text-derived fields. -/
def c5L3 : SummLine := ⟨none, none, none, none, none, 0⟩

/-- The local-entity extract for the C5 witness: one open agreement. -/
def c5Le : List ZsdRow := [⟨11111111, "EUR", 0⟩]

/-- The flagged and sorted output lines for the C5 witness account. -/
def c5Lines : List (SummLine × String) := [(c5L1, "x"), (c5L2, "CHECK"), (c5L3, "")]

/-- Witness for C5 at the spec's examples: amount 250 with a missing
agreement is flagged x, amount 250 against the unknown agreement 99999999
is flagged CHECK, and an amount-0 line with a missing agreement gets no
flag; the open list stems from one local-entity agreement 11111111. -/
theorem C5_agreement_state_validation_witness :
    ("12345678", c5Lines) ∈
      check_agreement_states [("12345678", [c5L1, c5L2, c5L3])] c5Le none ∧
    "x" = markStatus (openAgreements c5Le none) c5L1 ∧
    "CHECK" = markStatus (openAgreements c5Le none) c5L2 ∧
    "" = markStatus (openAgreements c5Le none) c5L3 ∧
    (99999999 ∈ openAgreements c5Le none ↔
      (99999999 ∈ c5Le.map ZsdRow.agreement ∨
       ∃ h, (none : Option (List ZsdRow)) = some h ∧
         99999999 ∈ h.map ZsdRow.agreement)) := by
  have h := C5_agreement_state_validation [("12345678", [c5L1, c5L2, c5L3])] c5Le none
  refine ⟨by decide, ?_, ?_, ?_, h.1 99999999⟩
  · exact (h.2 "12345678" c5Lines (by decide) c5L1 "x" (by decide)).1
  · exact (h.2 "12345678" c5Lines (by decide) c5L2 "CHECK" (by decide)).1
  · exact (h.2 "12345678" c5Lines (by decide) c5L3 "" (by decide)).1

/-! ## Summary roll-up (biaProcessor.summarize)

Inputs: the flagged text summaries per account, the calculated
local-entity and (optional) head-quarter bonus tables, the FS10N data per
account (`None` or a table of cumulative balances keyed by period), the
reconciled accounts and the fiscal period.  The output is the fixed-shape
summary table (one column per account plus the Difference column); the
final `reset_index` and the underscore-to-space relabelling are
presentation and not modelled. -/

/-- `le_calcs[acc].sum()`: the sum of one account column of a calculated
bonus table (the column exists for every reconciled account by
construction; an absent binding contributes 0). -/
def colSum (acc : String) (rows : List LeCalcRow) : ℚ :=
  (rows.map (fun r => (alookup acc r.accCols).getD 0)).sum

/-- `hq_calcs[acc].sum() if hq_calcs is not None else 0`. -/
def hqColSum (acc : String) (hqCalcs : Option (List LeCalcRow)) : ℚ :=
  match hqCalcs with
  | some h => colSum acc h
  | none => 0

/-- Total amount of the lines carrying one status flag
(`query("Status == ...")["LC_Amount_Sum"].sum()`). -/
def sumStatus (st : String) (lines : List (SummLine × String)) : ℚ :=
  ((lines.filter (fun p => p.2 = st)).map (fun p => p.1.LC_Amount_Sum)).sum

/-- Sequential effectful map, mirroring the per-account for-loop: the
first raised error aborts the computation. -/
def exceptMapM {α β ε : Type} (f : α → Except ε β) : List α → Except ε (List β)
  | [] => .ok []
  | x :: xs =>
    match f x with
    | .error e => .error e
    | .ok b =>
      match exceptMapM f xs with
      | .error e => .error e
      | .ok bs => .ok (b :: bs)

/-- The raw (pre-rounding) figures of one summary column. -/
structure ColEntry where
  le : ℚ
  hq : ℚ
  gl : ℚ
  statX : ℚ
  statC : ℚ
  deriving DecidableEq

/-- The per-account body of summarize's loop: an account absent from the
FS10N data is skipped with an all-zero column (`data[acc] = 0.0`); an
account whose FS10N entry is `None`, or whose cumulative balance for the
period is NA, gets balance 0; a missing period row, or an account missing
from the text summaries, raises (KeyError). -/
def summStep (txtSumms : List (String × List (SummLine × String)))
    (leCalcs : List LeCalcRow) (hqCalcs : Option (List LeCalcRow))
    (glData : List (String × Option (List (Nat × Option ℚ))))
    (period : Nat) (acc : String) : Except String ColEntry :=
  match alookup acc glData with
  | none => .ok ⟨0, 0, 0, 0, 0⟩
  | some tblOpt =>
    let cummE : Except String ℚ :=
      match tblOpt with
      | none => .ok 0
      | some tbl =>
        match alookup period tbl with
        | none => .error "KeyError: period"
        | some none => .ok 0
        | some (some v) => .ok v
    match cummE with
    | .error e => .error e
    | .ok cumm =>
      match alookup acc txtSumms with
      | none => .error "KeyError: account"
      | some lines =>
        .ok ⟨colSum acc leCalcs, hqColSum acc hqCalcs, cumm,
             sumStatus "x" lines, sumStatus "CHECK" lines⟩

/-- The summary table: rows as in the source's fixed index, one binding
per reconciled account plus the Difference column entry; `none` models a
pandas NA left in place. -/
structure SummaryTable where
  localEntityBonuses : List (String × Option ℚ)
  hqBonuses : List (String × Option ℚ)
  sumRow : List (String × Option ℚ)
  glBalance : List (String × Option ℚ)
  differenceRow : List (String × Option ℚ)
  statusX : List (String × Option ℚ)
  statusCheck : List (String × Option ℚ)
  localEntityDiff : Option ℚ
  hqDiff : Option ℚ
  sumDiff : Option ℚ
  glBalanceDiff : Option ℚ
  differenceDiff : Option ℚ
  statusXDiff : Option ℚ
  statusCheckDiff : Option ℚ
  deriving DecidableEq

/-- biaProcessor.summarize: assert the period is a fiscal period (1..15),
collect the per-account figures, compute Sum = LE + HQ and Difference =
GL balance - Sum from the raw figures, roll up the flagged totals, and
round every non-null value to 2 decimals at the end. -/
def summarize (txtSumms : List (String × List (SummLine × String)))
    (leCalcs : List LeCalcRow) (hqCalcs : Option (List LeCalcRow))
    (glData : List (String × Option (List (Nat × Option ℚ))))
    (accs : List Nat) (period : Nat) : Except String SummaryTable :=
  if period < 1 ∨ 15 < period then .error "Argument 'period' has incorrect value!"
  else
    match exceptMapM (summStep txtSumms leCalcs hqCalcs glData period)
        (accs.map (fun a : Nat => toString a)) with
    | .error e => .error e
    | .ok cols =>
      .ok {
        localEntityBonuses :=
          ((accs.map (fun a : Nat => toString a)).zip cols).map
            fun p => (p.1, some (round2 p.2.le))
        hqBonuses :=
          ((accs.map (fun a : Nat => toString a)).zip cols).map
            fun p => (p.1, some (round2 p.2.hq))
        sumRow :=
          ((accs.map (fun a : Nat => toString a)).zip cols).map
            fun p => (p.1, some (round2 (p.2.le + p.2.hq)))
        glBalance :=
          ((accs.map (fun a : Nat => toString a)).zip cols).map
            fun p => (p.1, some (round2 p.2.gl))
        differenceRow :=
          ((accs.map (fun a : Nat => toString a)).zip cols).map
            fun p => (p.1, some (round2 (p.2.gl - (p.2.le + p.2.hq))))
        statusX :=
          ((accs.map (fun a : Nat => toString a)).zip cols).map
            fun p => (p.1, some (round2 p.2.statX))
        statusCheck :=
          ((accs.map (fun a : Nat => toString a)).zip cols).map
            fun p => (p.1, some (round2 p.2.statC))
        localEntityDiff := some (round2 (leCalcs.map LeCalcRow.difference).sum)
        hqDiff := (hqCalcs.map (fun h => (h.map LeCalcRow.difference).sum)).map round2
        sumDiff := some (round2 ((leCalcs.map LeCalcRow.difference).sum +
          (hqCalcs.map (fun h => (h.map LeCalcRow.difference).sum)).getD 0))
        glBalanceDiff := none
        differenceDiff := none
        statusXDiff := some (round2
          (((accs.map (fun a : Nat => toString a)).zip cols).map
            fun p => p.2.statX).sum)
        statusCheckDiff := some (round2
          (((accs.map (fun a : Nat => toString a)).zip cols).map
            fun p => p.2.statC).sum) }

/-! ## Theorems for claim C6 -/

theorem exceptMapM_zip_alookup {β : Type} (step : String → Except String ColEntry)
    (f : ColEntry → β) :
    ∀ (l : List String) (cols : List ColEntry),
      exceptMapM step l = .ok cols → ∀ a ∈ l,
        ∃ c, step a = .ok c ∧
          alookup a ((l.zip cols).map fun p => (p.1, f p.2)) = some (f c) := by
  intro l
  induction l with
  | nil =>
    intro cols _ a ha
    cases ha
  | cons x xs ih =>
    intro cols hok a ha
    rw [exceptMapM] at hok
    cases hx : step x with
    | error e => simp [hx] at hok
    | ok c =>
      simp only [hx] at hok
      cases hxs : exceptMapM step xs with
      | error e => simp [hxs] at hok
      | ok cs =>
        simp only [hxs] at hok
        injection hok with hok
        subst hok
        rcases List.mem_cons.mp ha with rfl | ha'
        · exact ⟨c, hx, by simp [List.zip_cons_cons, alookup]⟩
        · by_cases hax : x = a
          · subst hax
            exact ⟨c, hx, by simp [List.zip_cons_cons, alookup]⟩
          · obtain ⟨c', hc', hl'⟩ := ih cs hxs a ha'
            refine ⟨c', hc', ?_⟩
            rw [List.zip_cons_cons, List.map_cons, alookup, if_neg hax]
            exact hl'

/-- Claim C6: for every reconciled account with GL data present, the Sum
row equals the Local-Entity row plus the HQ row, the Difference row
equals the GL cumulative balance for the reconciled period minus the Sum
row, the Status rows equal the total amounts of the x- and CHECK-flagged
lines, and (stated for the two computed rows) all non-null summary values
are exact in two decimals.  The figure equalities are stated for
two-decimal inputs, on which the final rounding is the identity. -/
theorem C6_summary_rollup (txtSumms : List (String × List (SummLine × String)))
    (leCalcs : List LeCalcRow) (hqCalcs : Option (List LeCalcRow))
    (glData : List (String × Option (List (Nat × Option ℚ))))
    (accs : List Nat) (period : Nat) (S : SummaryTable)
    (a : String) (tbl : List (Nat × Option ℚ)) (gl : ℚ)
    (lines : List (SummLine × String))
    (hS : summarize txtSumms leCalcs hqCalcs glData accs period = .ok S)
    (ha : a ∈ accs.map (fun n : Nat => toString n))
    (htbl : alookup a glData = some (some tbl))
    (hper : alookup period tbl = some (some gl))
    (hts : alookup a txtSumms = some lines)
    (hle : IsCent (colSum a leCalcs)) (hhq : IsCent (hqColSum a hqCalcs))
    (hgl : IsCent gl) (hsx : IsCent (sumStatus "x" lines))
    (hsc : IsCent (sumStatus "CHECK" lines)) :
    alookup a S.localEntityBonuses = some (some (colSum a leCalcs)) ∧
    alookup a S.hqBonuses = some (some (hqColSum a hqCalcs)) ∧
    alookup a S.sumRow = some (some (colSum a leCalcs + hqColSum a hqCalcs)) ∧
    alookup a S.glBalance = some (some gl) ∧
    alookup a S.differenceRow =
      some (some (gl - (colSum a leCalcs + hqColSum a hqCalcs))) ∧
    alookup a S.statusX = some (some (sumStatus "x" lines)) ∧
    alookup a S.statusCheck = some (some (sumStatus "CHECK" lines)) ∧
    (∀ q, alookup a S.sumRow = some (some q) → IsCent q) ∧
    (∀ q, alookup a S.differenceRow = some (some q) → IsCent q) := by
  rw [summarize] at hS
  split at hS
  · exact absurd hS (by simp)
  · split at hS
    · exact absurd hS (by simp)
    · rename_i cols hcols
      injection hS with hS
      subst hS
      have hstep : summStep txtSumms leCalcs hqCalcs glData period a =
          .ok ⟨colSum a leCalcs, hqColSum a hqCalcs, gl,
               sumStatus "x" lines, sumStatus "CHECK" lines⟩ := by
        rw [summStep, htbl]
        simp only [hper, hts]
      have key := fun {β : Type} (f : ColEntry → β) =>
        exceptMapM_zip_alookup (summStep txtSumms leCalcs hqCalcs glData period) f
          (accs.map (fun a : Nat => toString a)) cols hcols a ha
      have hLE := key (fun c => some (round2 c.le))
      have hHQ := key (fun c => some (round2 c.hq))
      have hSUM := key (fun c => some (round2 (c.le + c.hq)))
      have hGL := key (fun c => some (round2 c.gl))
      have hDIFF := key (fun c => some (round2 (c.gl - (c.le + c.hq))))
      have hSX := key (fun c => some (round2 c.statX))
      have hSC := key (fun c => some (round2 c.statC))
      obtain ⟨c1, hc1, hl1⟩ := hLE
      obtain ⟨c2, hc2, hl2⟩ := hHQ
      obtain ⟨c3, hc3, hl3⟩ := hSUM
      obtain ⟨c4, hc4, hl4⟩ := hGL
      obtain ⟨c5, hc5, hl5⟩ := hDIFF
      obtain ⟨c6, hc6, hl6⟩ := hSX
      obtain ⟨c7, hc7, hl7⟩ := hSC
      rw [hstep] at hc1 hc2 hc3 hc4 hc5 hc6 hc7
      injection hc1 with hc1
      injection hc2 with hc2
      injection hc3 with hc3
      injection hc4 with hc4
      injection hc5 with hc5
      injection hc6 with hc6
      injection hc7 with hc7
      subst hc1
      subst hc2
      subst hc3
      subst hc4
      subst hc5
      subst hc6
      subst hc7
      have hsumRow : alookup a
          (List.map (fun p => (p.1, some (round2 (p.2.le + p.2.hq))))
            ((accs.map (fun a : Nat => toString a)).zip cols)) =
          some (some (colSum a leCalcs + hqColSum a hqCalcs)) := by
        rw [hl3, round2_of_isCent _ (hle.add hhq)]
      have hdiffRow : alookup a
          (List.map (fun p => (p.1, some (round2 (p.2.gl - (p.2.le + p.2.hq)))))
            ((accs.map (fun a : Nat => toString a)).zip cols)) =
          some (some (gl - (colSum a leCalcs + hqColSum a hqCalcs))) := by
        rw [hl5, round2_of_isCent _ (hgl.sub (hle.add hhq))]
      refine ⟨?_, ?_, hsumRow, ?_, hdiffRow, ?_, ?_, ?_, ?_⟩
      · rw [hl1, round2_of_isCent _ hle]
      · rw [hl2, round2_of_isCent _ hhq]
      · rw [hl4, round2_of_isCent _ hgl]
      · rw [hl6, round2_of_isCent _ hsx]
      · rw [hl7, round2_of_isCent _ hsc]
      · intro q hq
        rw [hsumRow] at hq
        injection hq with hq
        injection hq with hq
        exact hq ▸ hle.add hhq
      · intro q hq
        rw [hdiffRow] at hq
        injection hq with hq
        injection hq with hq
        exact hq ▸ hgl.sub (hle.add hhq)

/-- Local-entity calculation table for the C6 witness: one agreement row
whose column for account 500 sums to 500.00. -/
def c6Le : List LeCalcRow := [⟨1, "EUR", 0, 0, 0, [("500", 500)], 0⟩]

/-- Head-quarter calculation table for the C6 witness: 300.00 on the
account. -/
def c6Hq : List LeCalcRow := [⟨2, "EUR", 0, 0, 0, [("500", 300)], 0⟩]

/-- FS10N data for the C6 witness: cumulative balance 800.00 in period 9. -/
def c6Gl : List (String × Option (List (Nat × Option ℚ))) :=
  [("500", some [(9, some 800)])]

/-- Flagged text summaries for the C6 witness: no flagged lines. -/
def c6Txt : List (String × List (SummLine × String)) := [("500", [])]

/-- Witness for C6 at the spec's example: LE 500.00, HQ 300.00, GL
balance 800.00 give Sum 800.00 and Difference 0.00. -/
theorem C6_summary_rollup_witness :
    ∃ S, summarize c6Txt c6Le (some c6Hq) c6Gl [500] 9 = .ok S ∧
      alookup "500" S.localEntityBonuses = some (some (500 : ℚ)) ∧
      alookup "500" S.hqBonuses = some (some (300 : ℚ)) ∧
      alookup "500" S.sumRow = some (some (800 : ℚ)) ∧
      alookup "500" S.glBalance = some (some (800 : ℚ)) ∧
      alookup "500" S.differenceRow = some (some (0 : ℚ)) := by
  obtain ⟨S, hS⟩ : ∃ S, summarize c6Txt c6Le (some c6Hq) c6Gl [500] 9 = .ok S :=
    ⟨_, rfl⟩
  have hcolLe : colSum "500" c6Le = 500 := by
    norm_num [colSum, c6Le, alookup]
  have hcolHq : hqColSum "500" (some c6Hq) = 300 := by
    norm_num [hqColSum, colSum, c6Hq, alookup]
  have h := C6_summary_rollup c6Txt c6Le (some c6Hq) c6Gl [500] 9 S
    "500" [(9, some 800)] 800 [] hS (by decide) rfl rfl rfl
    (⟨50000, by rw [hcolLe]; norm_num⟩)
    (⟨30000, by rw [hcolHq]; norm_num⟩)
    (⟨80000, by norm_num⟩)
    (⟨0, by norm_num [sumStatus]⟩)
    (⟨0, by norm_num [sumStatus]⟩)
  refine ⟨S, hS, ?_, ?_, ?_, ?_, ?_⟩
  · rw [h.1, hcolLe]
  · rw [h.2.1, hcolHq]
  · rw [h.2.2.1, hcolLe, hcolHq]
    norm_num
  · exact h.2.2.2.1
  · rw [h.2.2.2.2.1, hcolLe, hcolHq]
    norm_num

/-! ## FBL3N conversion (biaProcessor.convert_fbl3n_data_opt)

The regex line-filter and the csv read are text-plumbing shared by both
the single-threaded and the chunked path; the model starts from the rows
the csv read produces.  String primitives are modelled on character lists
(Python `str.strip` / single-character `str.replace` / `str.split`). -/

/-- A calendar date as produced by `pd.to_datetime(..., dayfirst = True)`
from the SAP day-first `dd.mm.yyyy` dumps. -/
structure SimpleDate where
  day : Nat
  month : Nat
  year : Nat
  deriving DecidableEq

/-- Python `str.strip()` on the character list. -/
def charTrim (cs : List Char) : List Char :=
  ((cs.dropWhile Char.isWhitespace).reverse.dropWhile Char.isWhitespace).reverse

/-- Python `str.strip()`. -/
def trimStr (s : String) : String := String.mk (charTrim s.data)

/-- The numeric value of a non-empty all-digit character list. -/
def digitsToNat (cs : List Char) : Option Nat :=
  if cs ≠ [] ∧ cs.all Char.isDigit
  then some (cs.foldl (fun n c => 10 * n + (c.toNat - '0'.toNat)) 0)
  else none

/-- Parse an optionally negative decimal numeral with at most one point
(the shape `pd.to_numeric` receives after the SAP amount rewrite). -/
def parseDecimalChars (cs : List Char) : Option ℚ :=
  let neg := cs.head? = some '-'
  let body := if neg then cs.tail else cs
  let sgn : ℚ := if neg then -1 else 1
  match body.splitOn '.' with
  | [w] => (digitsToNat w).map fun n => sgn * (n : ℚ)
  | [w, f] =>
    match digitsToNat w, digitsToNat f with
    | some n, some m => some (sgn * ((n : ℚ) + (m : ℚ) / (10 : ℚ) ^ f.length))
    | _, _ => none
  | _ => none

/-- biaProcessor._parse_amounts / the LC_Amount rewrite of
_parse_data_opt: drop the thousands separators, turn the decimal comma
into a point, move a trailing minus to the front, and convert. -/
def parseSapAmount (s : String) : Option ℚ :=
  let cs := (s.data.filter (fun c => c ≠ '.')).map (fun c => if c = ',' then '.' else c)
  match cs.getLast? with
  | some '-' => parseDecimalChars ('-' :: (cs.reverse.dropWhile (fun c => c = '-')).reverse)
  | _ => parseDecimalChars cs

/-- `pd.to_numeric(..., errors = "coerce")` on an identifier column: the
columns carry plain digit strings (possibly padded with blanks); anything
else coerces to NA. -/
def parseNatLoose (s : String) : Option Nat := digitsToNat (charTrim s.data)

/-- `pd.to_datetime(..., dayfirst = True).dt.date` on the SAP
`dd.mm.yyyy` dumps. -/
def parseSapDate (s : String) : Option SimpleDate :=
  match (s.data.splitOn '.').map digitsToNat with
  | [some d, some m, some y] => some ⟨d, m, y⟩
  | _ => none

/-- The empty-string-to-NA replacement
(`data.loc[(data[col] == ""), col] = pd.NA`). -/
def blankToNA (o : Option String) : Option String :=
  match o with
  | some s => if s = "" then none else some s
  | none => none

/-- `data["Text"].str.split(";")`: NA text gives NA tokens. -/
def textTokens (text : Option String) : Option (List String) :=
  text.map fun s => (s.data.splitOn ';').map String.mk

/-- The five fields derived from the free-text Text field. -/
structure DerivedFields where
  condition : Option String
  category : Option String
  customer : Option Nat
  agreement : Option Nat
  note : Option String
  deriving DecidableEq

/-- The Text-token derivation of _parse_data_opt (and _parse_data):
populate the five derived fields only for records whose token list has
at least 4 entries; strip the extracted strings; null a Condition whose
length is not 4 and a Category whose length is not 2; coerce Customer
and Agreement to numbers (NA on failure); Note is the optional 5th token
(NA when absent or blank). -/
def deriveTextFields (text : Option String) : DerivedFields :=
  match textTokens text with
  | some ts =>
    if 4 ≤ ts.length then
      { condition :=
          match (ts.get? 0).map trimStr with
          | some s => if s.length = 4 then some s else none
          | none => none
        category :=
          match (ts.get? 1).map trimStr with
          | some s => if s.length = 2 then some s else none
          | none => none
        customer := (ts.get? 2).bind parseNatLoose
        agreement := (ts.get? 3).bind parseNatLoose
        note :=
          match (ts.get? 4).map trimStr with
          | some s => if s = "" then none else some s
          | none => none }
    else ⟨none, none, none, none, none⟩
  | none => ⟨none, none, none, none, none⟩

/-- One row as the csv read of convert_fbl3n_data_opt produces it (typed
columns per its dtype table; string-typed columns are NA-able). -/
structure RawRow where
  fiscalYear : Nat
  period : Nat
  glAccount : Nat
  assignment : Option String
  documentNumber : Nat
  businessArea : Option String
  documentType : String
  documentDate : String
  postingDate : String
  postingKey : Nat
  lcAmount : String
  taxCode : Option String
  clearingDocument : Option String
  text : Option String
  deriving DecidableEq

/-- One fully parsed FBL3N record. -/
structure ParsedRow where
  fiscalYear : Nat
  period : Nat
  glAccount : Nat
  assignment : Option String
  documentNumber : Nat
  businessArea : Option String
  documentType : String
  documentDate : SimpleDate
  postingDate : SimpleDate
  postingKey : Nat
  lcAmount : ℚ
  taxCode : Option String
  clearingDocument : Option Nat
  text : Option String
  condition : Option String
  category : Option String
  customer : Option Nat
  agreement : Option Nat
  note : Option String
  deriving DecidableEq

/-- The whitespace strip of the string columns in
convert_fbl3n_data_opt. -/
def stripRaw (r : RawRow) : RawRow :=
  { r with
    assignment := r.assignment.map trimStr
    businessArea := r.businessArea.map trimStr
    taxCode := r.taxCode.map trimStr
    text := r.text.map trimStr
    lcAmount := trimStr r.lcAmount
    clearingDocument := r.clearingDocument.map trimStr }

/-- The per-row effect of biaProcessor._parse_data_opt: blank strings to
NA, Clearing_Document coerced to a nullable number, LC_Amount and the
two dates converted (raising — `.error` — on an unparseable value, there
is no coercion for them in the optimised parser), and the text-derived
fields populated. -/
def parseRowOpt (r : RawRow) : Except String ParsedRow :=
  match parseSapAmount r.lcAmount, parseSapDate r.documentDate,
      parseSapDate r.postingDate with
  | some amt, some dd, some pdt =>
    .ok {
      fiscalYear := r.fiscalYear
      period := r.period
      glAccount := r.glAccount
      assignment := blankToNA r.assignment
      documentNumber := r.documentNumber
      businessArea := blankToNA r.businessArea
      documentType := r.documentType
      documentDate := dd
      postingDate := pdt
      postingKey := r.postingKey
      lcAmount := amt
      taxCode := blankToNA r.taxCode
      clearingDocument :=
        match r.clearingDocument with
        | some s => parseNatLoose s
        | none => none
      text := blankToNA r.text
      condition := (deriveTextFields (blankToNA r.text)).condition
      category := (deriveTextFields (blankToNA r.text)).category
      customer := (deriveTextFields (blankToNA r.text)).customer
      agreement := (deriveTextFields (blankToNA r.text)).agreement
      note := (deriveTextFields (blankToNA r.text)).note }
  | _, _, _ => .error "conversion raised"

/-- biaProcessor._parse_data_opt over a chunk of rows: every operation of
the source is column-at-a-time but row-local, so the chunk parse is the
sequential per-row parse; the first raised error aborts. -/
def parseDataOptChunk (rows : List RawRow) : Except String (List ParsedRow) :=
  exceptMapM parseRowOpt rows

/-- The post-concatenation fixes of convert_fbl3n_data_opt that change
cell values: amounts with posting key 50 forced negative.  The dtype
re-conversions to category and the index reset preserve cell values and
row order and need no counterpart on a list of typed rows. -/
def postProcessFbl3n (parsed : List ParsedRow) : List ParsedRow :=
  parsed.map fun p =>
    if p.postingKey = 50 ∧ 0 < p.lcAmount
    then { p with lcAmount := -1 * p.lcAmount }
    else p

/-- Successive prefix split by a list of chunk sizes. -/
def splitSizes {α : Type} : List Nat → List α → List (List α)
  | [], _ => []
  | s :: ss, xs => xs.take s :: splitSizes ss (xs.drop s)

/-- `numpy.array_split(data, n)`: n contiguous chunks, the first
`len % n` of size `len / n + 1`, the rest of size `len / n`. -/
def arraySplit {α : Type} (n : Nat) (xs : List α) : List (List α) :=
  splitSizes
    ((List.range n).map fun i =>
      if i < xs.length % n then xs.length / n + 1 else xs.length / n)
    xs

/-- The parse phase of convert_fbl3n_data_opt: at most 1000 rows forces
the single-threaded path; the multiprocessing path asserts at least two
workers, splits the rows into contiguous chunks, parses each chunk with
the same function and concatenates in chunk order. -/
def convertParsePhase (rows : List RawRow) (multiproc : Bool) (nWorkers : Nat) :
    Except String (List ParsedRow) :=
  if (if rows.length ≤ 1000 then false else multiproc) then
    if nWorkers < 2 then .error "Argument n_workers has incorrect value!"
    else
      match exceptMapM parseDataOptChunk (arraySplit nWorkers rows) with
      | .error e => .error e
      | .ok parts => .ok parts.flatten
  else parseDataOptChunk rows

/-- biaProcessor.convert_fbl3n_data_opt: strip the string columns, parse
(single-threaded or chunked), return `none` for an empty result, and
apply the posting-key-50 sign fix. -/
def convert_fbl3n_data_opt (rows : List RawRow) (multiproc : Bool)
    (nWorkers : Nat) : Except String (Option (List ParsedRow)) :=
  match convertParsePhase (rows.map stripRaw) multiproc nWorkers with
  | .error e => .error e
  | .ok parsed =>
    if parsed = [] then .ok none else .ok (some (postProcessFbl3n parsed))

/-! ## Theorems for claim C7 -/

theorem exceptMapM_append {α β ε : Type} (f : α → Except ε β) (xs ys : List α) :
    exceptMapM f (xs ++ ys) =
      match exceptMapM f xs with
      | .error e => .error e
      | .ok as =>
        match exceptMapM f ys with
        | .error e => .error e
        | .ok bs => .ok (as ++ bs) := by
  induction xs with
  | nil =>
    cases h : exceptMapM f ys <;> simp [exceptMapM, h]
  | cons x xs ih =>
    simp only [List.cons_append, exceptMapM]
    cases f x with
    | error e => rfl
    | ok b =>
      simp only [List.append_eq]
      rw [ih]
      cases exceptMapM f xs with
      | error e => rfl
      | ok as =>
        cases exceptMapM f ys with
        | error e => rfl
        | ok bs => rfl

theorem exceptMapM_append_err1 {α β ε : Type} (f : α → Except ε β)
    (xs ys : List α) (e : ε) (h : exceptMapM f xs = .error e) :
    exceptMapM f (xs ++ ys) = .error e := by
  rw [exceptMapM_append, h]

theorem exceptMapM_append_err2 {α β ε : Type} (f : α → Except ε β)
    (xs ys : List α) (as : List β) (e : ε) (hx : exceptMapM f xs = .ok as)
    (hy : exceptMapM f ys = .error e) : exceptMapM f (xs ++ ys) = .error e := by
  rw [exceptMapM_append, hx, hy]

theorem exceptMapM_append_ok {α β ε : Type} (f : α → Except ε β)
    (xs ys : List α) (as bs : List β) (hx : exceptMapM f xs = .ok as)
    (hy : exceptMapM f ys = .ok bs) : exceptMapM f (xs ++ ys) = .ok (as ++ bs) := by
  rw [exceptMapM_append, hx, hy]

theorem exceptMapM_chunks (chunks : List (List RawRow)) :
    (match exceptMapM parseDataOptChunk chunks with
     | .error e => .error e
     | .ok parts => .ok parts.flatten) =
      parseDataOptChunk chunks.flatten := by
  induction chunks with
  | nil => rfl
  | cons c cs ih =>
    rw [List.flatten_cons, exceptMapM]
    cases hc : parseDataOptChunk c with
    | error e =>
      exact (exceptMapM_append_err1 parseRowOpt c cs.flatten e hc).symm
    | ok as =>
      cases hcs : exceptMapM parseDataOptChunk cs with
      | error e =>
        rw [hcs] at ih
        exact (exceptMapM_append_err2 parseRowOpt c cs.flatten as e hc ih.symm).symm
      | ok parts =>
        rw [hcs] at ih
        exact (exceptMapM_append_ok parseRowOpt c cs.flatten as parts.flatten
          hc ih.symm).symm

theorem sum_sizes_all (q : Nat) :
    ∀ n r, n ≤ r →
      (((List.range n).map fun i => if i < r then q + 1 else q)).sum = n * (q + 1) := by
  intro n
  induction n with
  | zero => intro r _; simp
  | succ m ih =>
    intro r hr
    rw [List.range_succ, List.map_append, List.sum_append]
    have hm : m < r := Nat.lt_of_lt_of_le (Nat.lt_succ_self m) hr
    rw [ih r (Nat.le_of_succ_le hr)]
    simp only [List.map_cons, List.map_nil, List.sum_cons, List.sum_nil, if_pos hm]
    ring

theorem sum_sizes (q : Nat) :
    ∀ n r, r ≤ n →
      (((List.range n).map fun i => if i < r then q + 1 else q)).sum = n * q + r := by
  intro n
  induction n with
  | zero =>
    intro r hr
    interval_cases r
    simp
  | succ m ih =>
    intro r hr
    rw [List.range_succ, List.map_append, List.sum_append]
    by_cases hrm : r ≤ m
    · rw [ih r hrm]
      have hnot : ¬ m < r := Nat.not_lt.mpr hrm
      simp only [List.map_cons, List.map_nil, List.sum_cons, List.sum_nil, if_neg hnot]
      ring
    · have hr' : r = m + 1 := Nat.le_antisymm hr (Nat.not_le.mp hrm)
      subst hr'
      rw [sum_sizes_all q m (m + 1) (Nat.le_succ m)]
      simp only [List.map_cons, List.map_nil, List.sum_cons, List.sum_nil,
        if_pos (Nat.lt_succ_self m)]
      ring

theorem splitSizes_flatten {α : Type} :
    ∀ (ss : List Nat) (xs : List α),
      (splitSizes ss xs).flatten = xs.take ss.sum := by
  intro ss
  induction ss with
  | nil => intro xs; simp [splitSizes]
  | cons s ss ih =>
    intro xs
    rw [splitSizes, List.flatten_cons, ih, List.sum_cons, List.take_add]

theorem arraySplit_flatten {α : Type} (n : Nat) (hn : 0 < n) (xs : List α) :
    (arraySplit n xs).flatten = xs := by
  unfold arraySplit
  rw [splitSizes_flatten,
    sum_sizes (xs.length / n) n (xs.length % n) (Nat.le_of_lt (Nat.mod_lt _ hn)),
    Nat.div_add_mod, List.take_length]

/-- Claim C7: for every input, the FBL3N conversion with the parallel
chunked option (N >= 2 workers: split the rows into N contiguous chunks,
parse each chunk with the same function, concatenate, reset row
identifiers) yields exactly the single-threaded conversion's result. -/
theorem C7_chunked_parse_equivalence (rows : List RawRow) (n : Nat) (h : 2 ≤ n) :
    convert_fbl3n_data_opt rows true n = convert_fbl3n_data_opt rows false n := by
  unfold convert_fbl3n_data_opt
  suffices hph : convertParsePhase (rows.map stripRaw) true n =
      convertParsePhase (rows.map stripRaw) false n by rw [hph]
  generalize rows.map stripRaw = l
  unfold convertParsePhase
  by_cases hlen : l.length ≤ 1000
  · simp [hlen]
  · simp only [hlen, if_false, if_true]
    rw [if_neg (by omega : ¬ n < 2)]
    rw [exceptMapM_chunks (arraySplit n l), arraySplit_flatten n (by omega) l]
    simp

/-- Witness for C7: two workers on a one-row input, plus the evaluated
empty-input conversion. -/
theorem C7_chunked_parse_equivalence_witness :
    convert_fbl3n_data_opt
        [⟨2024, 2, 71111111, some "a", 9000000001, none, "SA", "01.02.2024",
          "02.02.2024", 50, "1.234,56-", none, none, some "ZBON;B1;123;555"⟩]
        true 2 =
      convert_fbl3n_data_opt
        [⟨2024, 2, 71111111, some "a", 9000000001, none, "SA", "01.02.2024",
          "02.02.2024", 50, "1.234,56-", none, none, some "ZBON;B1;123;555"⟩]
        false 2 ∧
    convert_fbl3n_data_opt [] false 2 = .ok none :=
  ⟨C7_chunked_parse_equivalence
    [⟨2024, 2, 71111111, some "a", 9000000001, none, "SA", "01.02.2024",
      "02.02.2024", 50, "1.234,56-", none, none, some "ZBON;B1;123;555"⟩]
    2 (by decide), rfl⟩

/-! ## Theorems for claim C8 -/

theorem deriveTextFields_short (text : Option String) :
    (∀ ts, textTokens text = some ts → ts.length < 4 →
      deriveTextFields text = ⟨none, none, none, none, none⟩) ∧
    (textTokens text = none →
      deriveTextFields text = ⟨none, none, none, none, none⟩) ∧
    (∀ s, (deriveTextFields text).condition = some s → s.length = 4) ∧
    (∀ s, (deriveTextFields text).category = some s → s.length = 2) := by
  unfold deriveTextFields
  cases ht : textTokens text with
  | none =>
    refine ⟨?_, fun _ => rfl, ?_, ?_⟩
    · intro ts hts
      cases hts
    · intro s hs
      cases hs
    · intro s hs
      cases hs
  | some ts =>
    by_cases h4 : 4 ≤ ts.length
    · refine ⟨?_, ?_, ?_, ?_⟩
      · intro ts' hts' hlt
        injection hts' with hts'
        subst hts'
        omega
      · intro hnone
        cases hnone
      · intro s hs
        dsimp only at hs
        rw [if_pos h4] at hs
        revert hs
        cases (ts.get? 0).map trimStr with
        | none => intro hs; cases hs
        | some t =>
          simp only
          by_cases hlen : t.length = 4
          · rw [if_pos hlen]
            intro hs
            injection hs with hs
            subst hs
            exact hlen
          · rw [if_neg hlen]
            intro hs
            cases hs
      · intro s hs
        dsimp only at hs
        rw [if_pos h4] at hs
        revert hs
        cases (ts.get? 1).map trimStr with
        | none => intro hs; cases hs
        | some t =>
          simp only
          by_cases hlen : t.length = 2
          · rw [if_pos hlen]
            intro hs
            injection hs with hs
            subst hs
            exact hlen
          · rw [if_neg hlen]
            intro hs
            cases hs
    · refine ⟨?_, ?_, ?_, ?_⟩
      · intro ts' hts' _
        dsimp only
        rw [if_neg h4]
      · intro hnone
        cases hnone
      · intro s hs
        dsimp only at hs
        rw [if_neg h4] at hs
        cases hs
      · intro s hs
        dsimp only at hs
        rw [if_neg h4] at hs
        cases hs

/-- Claim C8: in the FBL3N conversion, the derived Condition, Category,
Customer, Agreement and Note fields of every successfully parsed record
come from the Text-token derivation, which populates them only when the
Text field splits on semicolons into at least 4 tokens (missing Text, or
fewer tokens, keeps all five fields null), and which replaces a
Condition whose length is not 4 characters and a Category whose length
is not 2 characters by null rather than keeping them. -/
theorem C8_text_token_derivation (r : RawRow) (p : ParsedRow)
    (hp : parseRowOpt r = .ok p) :
    (p.condition = (deriveTextFields (blankToNA r.text)).condition ∧
     p.category = (deriveTextFields (blankToNA r.text)).category ∧
     p.customer = (deriveTextFields (blankToNA r.text)).customer ∧
     p.agreement = (deriveTextFields (blankToNA r.text)).agreement ∧
     p.note = (deriveTextFields (blankToNA r.text)).note) ∧
    (∀ ts, textTokens (blankToNA r.text) = some ts → ts.length < 4 →
      p.condition = none ∧ p.category = none ∧ p.customer = none ∧
      p.agreement = none ∧ p.note = none) ∧
    (textTokens (blankToNA r.text) = none →
      p.condition = none ∧ p.category = none ∧ p.customer = none ∧
      p.agreement = none ∧ p.note = none) ∧
    (∀ s, p.condition = some s → s.length = 4) ∧
    (∀ s, p.category = some s → s.length = 2) := by
  have hfields : p.condition = (deriveTextFields (blankToNA r.text)).condition ∧
      p.category = (deriveTextFields (blankToNA r.text)).category ∧
      p.customer = (deriveTextFields (blankToNA r.text)).customer ∧
      p.agreement = (deriveTextFields (blankToNA r.text)).agreement ∧
      p.note = (deriveTextFields (blankToNA r.text)).note := by
    unfold parseRowOpt at hp
    cases ha : parseSapAmount r.lcAmount with
    | none => rw [ha] at hp; cases hp
    | some amt =>
      cases hd : parseSapDate r.documentDate with
      | none => rw [ha, hd] at hp; cases hp
      | some dd =>
        cases hpd : parseSapDate r.postingDate with
        | none => rw [ha, hd, hpd] at hp; cases hp
        | some pdt =>
          rw [ha, hd, hpd] at hp
          injection hp with hp
          subst hp
          exact ⟨rfl, rfl, rfl, rfl, rfl⟩
  have hder := deriveTextFields_short (blankToNA r.text)
  obtain ⟨hc, hcat, hcu, hag, hn⟩ := hfields
  refine ⟨⟨hc, hcat, hcu, hag, hn⟩, ?_, ?_, ?_, ?_⟩
  · intro ts hts hlt
    have hz := hder.1 ts hts hlt
    rw [hc, hcat, hcu, hag, hn, hz]
    exact ⟨rfl, rfl, rfl, rfl, rfl⟩
  · intro hnone
    have hz := hder.2.1 hnone
    rw [hc, hcat, hcu, hag, hn, hz]
    exact ⟨rfl, rfl, rfl, rfl, rfl⟩
  · intro s hs
    exact hder.2.2.1 s (hc ▸ hs)
  · intro s hs
    exact hder.2.2.2 s (hcat ▸ hs)

/-- Raw row for the C8 witness whose Text has only 3 semicolon tokens. -/
def c8RawShort : RawRow :=
  ⟨2024, 2, 71111111, none, 9000000001, none, "SA", "01.02.2024",
   "02.02.2024", 40, "100,00", none, none, some "ZBON;B1;77"⟩

/-- Raw row for the C8 witness whose Text has 5 tokens, with a 5-character
first token (nulled) and a valid 2-character category. -/
def c8RawLong : RawRow :=
  ⟨2024, 2, 71111111, none, 9000000001, none, "SA", "01.02.2024",
   "02.02.2024", 40, "100,00", none, none, some "ZBONX;B1;123;555;note"⟩

/-- Witness for C8: a 3-token Text keeps all five derived fields null; a
5-token Text with a 5-character Condition keeps Condition null while the
2-character Category is kept. -/
theorem C8_text_token_derivation_witness :
    (∃ p, parseRowOpt c8RawShort = .ok p ∧
      p.condition = none ∧ p.category = none ∧ p.customer = none ∧
      p.agreement = none ∧ p.note = none) ∧
    (∃ p, parseRowOpt c8RawLong = .ok p ∧
      p.condition = none ∧ p.category = some "B1" ∧ p.agreement = some 555) := by
  constructor
  · obtain ⟨p, hp⟩ : ∃ p, parseRowOpt c8RawShort = .ok p := ⟨_, rfl⟩
    have h := C8_text_token_derivation c8RawShort p hp
    exact ⟨p, hp, h.2.1 ["ZBON", "B1", "77"] rfl (by decide)⟩
  · obtain ⟨p, hp⟩ : ∃ p, parseRowOpt c8RawLong = .ok p := ⟨_, rfl⟩
    have h := C8_text_token_derivation c8RawLong p hp
    refine ⟨p, hp, ?_, ?_, ?_⟩
    · rw [h.1.1]
      decide
    · rw [h.1.2.1]
      decide
    · rw [h.1.2.2.2.1]
      decide

end GLBR
